import Mathlib

/-! The `wasi:http/incoming-handler` example of componentize-go.

A shallow embedding of `examples/wasip2/export_wasi_http_incoming_handler/handler.go`.

`Handle` is straight-line Go code whose only effects are calls of imported
(host) functions.  The host is a parameter of the development: an arbitrary
state machine `Host σ` that decides what every imported function returns.
`Handle` is run in a small monad `Exec σ` that threads the host state,
appends every imported call together with its return value to a trace, and
records a Go panic as the result `none`.
-/

namespace ExportWasiHttpIncomingHandler

/-! ## Data model -/

/-- Modelled from the spec: the generic `Result[T, U]` of the imported package
`go.bytecodealliance.org/pkg/wit/types`, whose declaration is not among the
sources; the spec describes every fallible result as a `success | failure`
sum type. -/
inductive Result (T U : Type) where
  | ok (value : T)
  | err (value : U)
  deriving DecidableEq, Repr

/-- Modelled from the spec: the function `Ok[T, U](value)` of `wit/types`, not
among the sources; it wraps a value as the success variant
("the success-wrapped response object"). -/
def Ok {T U : Type} (value : T) : Result T U := Result.ok value

/-- Modelled from the spec: the method `IsOk()` of `Result`, not among the
sources; the check that a fallible call succeeded. -/
def Result.IsOk {T U : Type} : Result T U → Bool
  | Result.ok _ => true
  | Result.err _ => false

/-- Modelled from the spec: the method `Ok()` of `Result`, not among the
sources; it yields the success value. Asked of a failure it yields nothing,
which stands for the Go method not returning (a panic). -/
def Result.Ok {T U : Type} : Result T U → Option T
  | Result.ok value => some value
  | Result.err _ => none

/-- Handle of the resource `incoming-request`. -/
structure IncomingRequest where
  handle : Nat
  deriving DecidableEq, Repr

/-- Handle of the resource `response-outparam`. -/
structure ResponseOutparam where
  handle : Nat
  deriving DecidableEq, Repr

/-- Handle of the resource `fields`. -/
structure Fields where
  handle : Nat
  deriving DecidableEq, Repr

/-- Handle of the resource `outgoing-response`. -/
structure OutgoingResponse where
  handle : Nat
  deriving DecidableEq, Repr

/-- Handle of the resource `outgoing-body` (what `response.Body()` yields; the
source binds it to the variable `stream`). -/
structure OutgoingBody where
  handle : Nat
  deriving DecidableEq, Repr

/-- Handle of the resource `output-stream` (what `stream.Write()` yields). -/
structure OutputStream where
  handle : Nat
  deriving DecidableEq, Repr

/-- The variant `error-code` of `wasi:http/types`; `Handle` only names the
type, so its cases are kept abstract as a number. -/
structure ErrorCode where
  code : Nat
  deriving DecidableEq, Repr

/-- The variant `stream-error` of `wasi:io/streams`. -/
inductive StreamError where
  | LastOperationFailed (error : Nat)
  | Closed
  deriving DecidableEq, Repr

/-- The conversion `[]byte(s)` of Go: the UTF-8 bytes of a string, each byte a
number below 256. -/
def bytes (s : String) : List Nat :=
  (s.data.flatMap String.utf8EncodeChar).map UInt8.toNat

/-! ## Imported calls and traces -/

/-- An imported call as `Handle` issues it: the function and its arguments. -/
inductive Call where
  | MakeFields
  | MakeOutgoingResponse (headers : Fields)
  | Body (self : OutgoingResponse)
  | ResponseOutparamSet (param : ResponseOutparam)
      (response : Result OutgoingResponse ErrorCode)
  | Write (self : OutgoingBody)
  | BlockingWriteAndFlush (self : OutputStream) (contents : List Nat)
  deriving DecidableEq, Repr

/-- An entry of the trace: an imported call together with what it returned. -/
inductive Event where
  | MakeFields (ret : Fields)
  | MakeOutgoingResponse (headers : Fields) (ret : OutgoingResponse)
  | Body (self : OutgoingResponse) (ret : Result OutgoingBody Unit)
  | ResponseOutparamSet (param : ResponseOutparam)
      (response : Result OutgoingResponse ErrorCode)
  | Write (self : OutgoingBody) (ret : Result OutputStream Unit)
  | BlockingWriteAndFlush (self : OutputStream) (contents : List Nat)
      (ret : Result Unit StreamError)
  deriving DecidableEq, Repr

/-- The imported functions of `wit_component/wasi_http_types`, whose bodies are
not among the sources: they are a parameter, a state machine over host states
`σ`. Every function may return anything and change the host state in any way,
so a statement for all hosts holds for every combination of outcomes. -/
structure Host (σ : Type) where
  MakeFields : σ → Fields × σ
  MakeOutgoingResponse : Fields → σ → OutgoingResponse × σ
  Body : OutgoingResponse → σ → Result OutgoingBody Unit × σ
  ResponseOutparamSet : ResponseOutparam → Result OutgoingResponse ErrorCode → σ → σ
  Write : OutgoingBody → σ → Result OutputStream Unit × σ
  BlockingWriteAndFlush : OutputStream → List Nat → σ → Result Unit StreamError × σ

/-- What a run has done so far: the host state and the imported calls made. -/
structure World (σ : Type) where
  state : σ
  trace : List Event

/-- Go code running against a host: it yields a value, or `none` when it
panicked, and the world it leaves behind. -/
def Exec (σ α : Type) : Type := Host σ → World σ → Option α × World σ

/-- Returning a value touches nothing. -/
def Exec.pure {σ α : Type} (a : α) : Exec σ α := fun _ w => (some a, w)

/-- Sequencing: a panic of the first part skips the rest. -/
def Exec.bind {σ α β : Type} (x : Exec σ α) (f : α → Exec σ β) : Exec σ β :=
  fun host w =>
    match x host w with
    | (some a, w1) => f a host w1
    | (none, w1) => (none, w1)

instance {σ : Type} : Monad (Exec σ) where
  pure := Exec.pure
  bind := Exec.bind

/-- A value that may be a panic, inside running code. -/
def Exec.ofOption {σ α : Type} (o : Option α) : Exec σ α := fun _ w => (o, w)

instance {σ : Type} : MonadLift Option (Exec σ) where
  monadLift := Exec.ofOption

/-- The imported constructor `MakeFields()`. -/
def MakeFields {σ : Type} : Exec σ Fields := fun host w =>
  let r := host.MakeFields w.state
  (some r.1, ⟨r.2, w.trace ++ [Event.MakeFields r.1]⟩)

/-- The imported constructor `MakeOutgoingResponse(headers)`. -/
def MakeOutgoingResponse {σ : Type} (headers : Fields) : Exec σ OutgoingResponse :=
  fun host w =>
    let r := host.MakeOutgoingResponse headers w.state
    (some r.1, ⟨r.2, w.trace ++ [Event.MakeOutgoingResponse headers r.1]⟩)

/-- The imported method `response.Body()`. -/
def OutgoingResponse.Body {σ : Type} (self : OutgoingResponse) :
    Exec σ (Result OutgoingBody Unit) := fun host w =>
  let r := host.Body self w.state
  (some r.1, ⟨r.2, w.trace ++ [Event.Body self r.1]⟩)

/-- The imported function `ResponseOutparamSet(param, response)`. -/
def ResponseOutparamSet {σ : Type} (param : ResponseOutparam)
    (response : Result OutgoingResponse ErrorCode) : Exec σ Unit := fun host w =>
  (some (), ⟨host.ResponseOutparamSet param response w.state,
    w.trace ++ [Event.ResponseOutparamSet param response]⟩)

/-- The imported method `Write()` of an outgoing body. -/
def OutgoingBody.Write {σ : Type} (self : OutgoingBody) :
    Exec σ (Result OutputStream Unit) := fun host w =>
  let r := host.Write self w.state
  (some r.1, ⟨r.2, w.trace ++ [Event.Write self r.1]⟩)

/-- The imported method `BlockingWriteAndFlush(contents)` of an output stream. -/
def OutputStream.BlockingWriteAndFlush {σ : Type} (self : OutputStream)
    (contents : List Nat) : Exec σ (Result Unit StreamError) := fun host w =>
  let r := host.BlockingWriteAndFlush self contents w.state
  (some r.1, ⟨r.2, w.trace ++ [Event.BlockingWriteAndFlush self contents r.1]⟩)

/-! ## The handler -/

/-- The function `Handle` of `handler.go`, statement by statement. -/
def Handle {σ : Type} (request : IncomingRequest) (responseOut : ResponseOutparam) :
    Exec σ Unit := do
  let response ← MakeOutgoingResponse (← MakeFields)

  let body ← response.Body

  ResponseOutparamSet responseOut (Ok response)

  let message := bytes "Hello, world!"

  if body.IsOk then
    let stream ← body.Ok
    let writeResult ← stream.Write
    if writeResult.IsOk then
      let _ ← (← writeResult.Ok).BlockingWriteAndFlush message

/-- One invocation of `Handle` by the dispatcher: host state `s`, no imported
call made yet. -/
def invoke {σ : Type} (host : Host σ) (s : σ) (request : IncomingRequest)
    (responseOut : ResponseOutparam) : Option Unit × World σ :=
  Handle request responseOut host ⟨s, []⟩

/-- The trace of imported calls of one invocation. -/
def traceOf {σ : Type} (host : Host σ) (s : σ) (request : IncomingRequest)
    (responseOut : ResponseOutparam) : List Event :=
  (invoke host s request responseOut).2.trace

/-- Whether one invocation returned normally: `some ()`, and `none` for a panic. -/
def returnOf {σ : Type} (host : Host σ) (s : σ) (request : IncomingRequest)
    (responseOut : ResponseOutparam) : Option Unit :=
  (invoke host s request responseOut).1

/-- The header collection the host returns to the `MakeFields()` call of an
invocation started in host state `s`. -/
def fieldsOf {σ : Type} (host : Host σ) (s : σ) : Fields :=
  (host.MakeFields s).1

/-- The response object the host returns to `MakeOutgoingResponse` applied to
that header collection. -/
def responseOf {σ : Type} (host : Host σ) (s : σ) : OutgoingResponse :=
  (host.MakeOutgoingResponse (host.MakeFields s).1 (host.MakeFields s).2).1

/-! ## Reading a trace -/

/-- The call of a trace entry, without what the host returned. -/
def Event.call : Event → Call
  | Event.MakeFields _ => Call.MakeFields
  | Event.MakeOutgoingResponse headers _ => Call.MakeOutgoingResponse headers
  | Event.Body self _ => Call.Body self
  | Event.ResponseOutparamSet param response => Call.ResponseOutparamSet param response
  | Event.Write self _ => Call.Write self
  | Event.BlockingWriteAndFlush self contents _ => Call.BlockingWriteAndFlush self contents

/-- The calls of a trace, in order: everything `Handle` itself emitted. -/
def callsOf (t : List Event) : List Call := t.map Event.call

/-- A resource handle of any of the six resource types. -/
inductive Resource where
  | request (r : IncomingRequest)
  | outparam (p : ResponseOutparam)
  | fields (f : Fields)
  | response (r : OutgoingResponse)
  | body (b : OutgoingBody)
  | stream (s : OutputStream)
  deriving DecidableEq, Repr

/-- The resources a call operates on: its receiver and the handles among its
arguments (a handle inside a `Result` argument included). -/
def Call.operands : Call → List Resource
  | Call.MakeFields => []
  | Call.MakeOutgoingResponse headers => [Resource.fields headers]
  | Call.Body self => [Resource.response self]
  | Call.ResponseOutparamSet param (Result.ok r) =>
      [Resource.outparam param, Resource.response r]
  | Call.ResponseOutparamSet param (Result.err _) => [Resource.outparam param]
  | Call.Write self => [Resource.body self]
  | Call.BlockingWriteAndFlush self _ => [Resource.stream self]

/-- Is the entry a `ResponseOutparamSet` call. -/
def Event.isSet : Event → Bool
  | Event.ResponseOutparamSet _ _ => true
  | _ => false

/-- Is the entry a `ResponseOutparamSet` call on the given out-parameter. -/
def Event.isSetOn (p : ResponseOutparam) : Event → Bool
  | Event.ResponseOutparamSet param _ => decide (param = p)
  | _ => false

/-- Is the entry a `Body()` call. -/
def Event.isBody : Event → Bool
  | Event.Body _ _ => true
  | _ => false

/-- Is the entry a `Write()` call. -/
def Event.isWrite : Event → Bool
  | Event.Write _ _ => true
  | _ => false

/-- Is the entry a `BlockingWriteAndFlush` call. -/
def Event.isFlush : Event → Bool
  | Event.BlockingWriteAndFlush _ _ _ => true
  | _ => false

/-- Is the entry a `Body()` call that returned a failure. -/
def Event.isBodyErr : Event → Bool
  | Event.Body _ (Result.err _) => true
  | _ => false

/-- Is the entry a `Body()` call that returned a body. -/
def Event.isBodyOk : Event → Bool
  | Event.Body _ (Result.ok _) => true
  | _ => false

/-- Is the entry a `Write()` call that returned a failure. -/
def Event.isWriteErr : Event → Bool
  | Event.Write _ (Result.err _) => true
  | _ => false

/-- Is the entry a `Write()` call that returned a stream. -/
def Event.isWriteOk : Event → Bool
  | Event.Write _ (Result.ok _) => true
  | _ => false

/-- Is the entry a `BlockingWriteAndFlush` call that returned a failure. -/
def Event.isFlushErr : Event → Bool
  | Event.BlockingWriteAndFlush _ _ (Result.err _) => true
  | _ => false

/-- Is the entry a `BlockingWriteAndFlush` call that returned success. -/
def Event.isFlushOk : Event → Bool
  | Event.BlockingWriteAndFlush _ _ (Result.ok _) => true
  | _ => false

/-- The values placed into out-parameters, with the out-parameter, in order. -/
def committed (t : List Event) :
    List (ResponseOutparam × Result OutgoingResponse ErrorCode) :=
  t.filterMap fun e =>
    match e with
    | Event.ResponseOutparamSet param response => some (param, response)
    | _ => none

/-- The byte sequences handed to `BlockingWriteAndFlush`, in order. -/
def flushed (t : List Event) : List (List Nat) :=
  t.filterMap fun e =>
    match e with
    | Event.BlockingWriteAndFlush _ contents _ => some contents
    | _ => none

/-- The part of a trace before its first `ResponseOutparamSet` call. -/
def beforeCommit (t : List Event) : List Event :=
  t.takeWhile fun e => !e.isSet

/-- The part of a trace after its first `ResponseOutparamSet` call. -/
def afterCommit (t : List Event) : List Event :=
  (t.dropWhile fun e => !e.isSet).tail

/-- The stages of the exchange. -/
inductive Stage where
  | construct
  | commit
  | acquireBody
  | write
  | flush
  deriving DecidableEq, Repr

/-- The stage an imported call belongs to. -/
def Event.stage : Event → Stage
  | Event.MakeFields _ => Stage.construct
  | Event.MakeOutgoingResponse _ _ => Stage.construct
  | Event.Body _ _ => Stage.acquireBody
  | Event.ResponseOutparamSet _ _ => Stage.commit
  | Event.Write _ _ => Stage.write
  | Event.BlockingWriteAndFlush _ _ _ => Stage.flush

/-! ## Concrete hosts -/

/-- The outcomes a scripted host gives to the three fallible calls. -/
structure Script where
  bodyOk : Bool
  writeOk : Bool
  flushOk : Bool
  deriving DecidableEq, Repr

/-- A host that follows a script. Its state counts the calls made so far, and
a call that returns a handle returns the count as the handle. -/
def scriptedHost (sc : Script) : Host Nat where
  MakeFields := fun n => (⟨n⟩, n + 1)
  MakeOutgoingResponse := fun _ n => (⟨n⟩, n + 1)
  Body := fun _ n => (if sc.bodyOk then Result.ok ⟨n⟩ else Result.err (), n + 1)
  ResponseOutparamSet := fun _ _ n => n + 1
  Write := fun _ n => (if sc.writeOk then Result.ok ⟨n⟩ else Result.err (), n + 1)
  BlockingWriteAndFlush := fun _ _ n =>
    (if sc.flushOk then Result.ok () else Result.err StreamError.Closed, n + 1)

/-- The trace of `Handle` against a scripted host started at count 0, for
request handle 7 and out-parameter handle 9. -/
def scriptedTrace (sc : Script) : List Event :=
  traceOf (scriptedHost sc) 0 ⟨7⟩ ⟨9⟩

/-! ## The shape of every run -/

/-- Every invocation returns normally and its trace has one of three shapes,
according to whether `Body()` failed, `Write()` failed, or both succeeded. -/
theorem invoke_shape {σ : Type} (host : Host σ) (s : σ) (request : IncomingRequest)
    (responseOut : ResponseOutparam) :
    ∃ s1 : σ,
      (∃ e, invoke host s request responseOut = (some (), ⟨s1,
        [Event.MakeFields (fieldsOf host s),
          Event.MakeOutgoingResponse (fieldsOf host s) (responseOf host s),
          Event.Body (responseOf host s) (Result.err e),
          Event.ResponseOutparamSet responseOut (Result.ok (responseOf host s))]⟩)) ∨
      (∃ b e, invoke host s request responseOut = (some (), ⟨s1,
        [Event.MakeFields (fieldsOf host s),
          Event.MakeOutgoingResponse (fieldsOf host s) (responseOf host s),
          Event.Body (responseOf host s) (Result.ok b),
          Event.ResponseOutparamSet responseOut (Result.ok (responseOf host s)),
          Event.Write b (Result.err e)]⟩)) ∨
      (∃ b st res, invoke host s request responseOut = (some (), ⟨s1,
        [Event.MakeFields (fieldsOf host s),
          Event.MakeOutgoingResponse (fieldsOf host s) (responseOf host s),
          Event.Body (responseOf host s) (Result.ok b),
          Event.ResponseOutparamSet responseOut (Result.ok (responseOf host s)),
          Event.Write b (Result.ok st),
          Event.BlockingWriteAndFlush st (bytes "Hello, world!") res]⟩)) := by
  simp only [invoke, Handle, bind, Exec.bind, MakeFields, MakeOutgoingResponse,
    OutgoingResponse.Body, ResponseOutparamSet, Ok, liftM, monadLift, MonadLift.monadLift,
    pure, fieldsOf, responseOf]
  rcases host.MakeFields s with ⟨f, s1⟩
  simp only []
  rcases host.MakeOutgoingResponse f s1 with ⟨r, s2⟩
  simp only []
  rcases host.Body r s2 with ⟨b, s3⟩
  simp only []
  generalize host.ResponseOutparamSet responseOut (Result.ok r) s3 = s4
  cases b with
  | err e =>
    exact ⟨s4, Or.inl ⟨e, by simp [Result.IsOk, Exec.pure]⟩⟩
  | ok b =>
    simp only [Result.IsOk, Result.Ok, if_true, Exec.bind, Exec.ofOption, OutgoingBody.Write]
    rcases host.Write b s4 with ⟨w, s5⟩
    cases w with
    | err e => exact ⟨s5, Or.inr (Or.inl ⟨b, e, by simp [Exec.pure]⟩)⟩
    | ok st =>
      simp only [if_true, Exec.bind, Exec.ofOption, OutputStream.BlockingWriteAndFlush,
        Exec.pure]
      rcases host.BlockingWriteAndFlush st (bytes "Hello, world!") s5 with ⟨res, s6⟩
      exact ⟨s6, Or.inr (Or.inr ⟨b, st, res, by simp⟩)⟩

/-- The three shapes of a trace, with the normal return, read off `invoke`. -/
theorem trace_shape {σ : Type} (host : Host σ) (s : σ) (request : IncomingRequest)
    (responseOut : ResponseOutparam) :
    returnOf host s request responseOut = some () ∧
    ((∃ e, traceOf host s request responseOut =
        [Event.MakeFields (fieldsOf host s),
          Event.MakeOutgoingResponse (fieldsOf host s) (responseOf host s),
          Event.Body (responseOf host s) (Result.err e),
          Event.ResponseOutparamSet responseOut (Result.ok (responseOf host s))]) ∨
      (∃ b e, traceOf host s request responseOut =
        [Event.MakeFields (fieldsOf host s),
          Event.MakeOutgoingResponse (fieldsOf host s) (responseOf host s),
          Event.Body (responseOf host s) (Result.ok b),
          Event.ResponseOutparamSet responseOut (Result.ok (responseOf host s)),
          Event.Write b (Result.err e)]) ∨
      (∃ b st res, traceOf host s request responseOut =
        [Event.MakeFields (fieldsOf host s),
          Event.MakeOutgoingResponse (fieldsOf host s) (responseOf host s),
          Event.Body (responseOf host s) (Result.ok b),
          Event.ResponseOutparamSet responseOut (Result.ok (responseOf host s)),
          Event.Write b (Result.ok st),
          Event.BlockingWriteAndFlush st (bytes "Hello, world!") res])) := by
  obtain ⟨s1, ⟨e, h⟩ | ⟨b, e, h⟩ | ⟨b, st, res, h⟩⟩ := invoke_shape host s request responseOut
  · exact ⟨by simp [returnOf, h], Or.inl ⟨e, by simp [traceOf, h]⟩⟩
  · exact ⟨by simp [returnOf, h], Or.inr (Or.inl ⟨b, e, by simp [traceOf, h]⟩)⟩
  · exact ⟨by simp [returnOf, h], Or.inr (Or.inr ⟨b, st, res, by simp [traceOf, h]⟩)⟩

/-- In a list split as `pre ++ e :: post`, if `e` is a failed flush and no
entry except possibly the last one is a failed flush, then `e` is the last
entry: nothing follows it. -/
theorem nothing_after_last {t pre post : List Event} {e : Event}
    (he : e.isFlushErr = true) (ht : t = pre ++ e :: post)
    (hd : t.dropLast.all (fun x => !x.isFlushErr) = true) : post = [] := by
  cases post with
  | nil => rfl
  | cons p ps =>
    subst ht
    rw [List.dropLast_append_of_ne_nil _ (by simp)] at hd
    simp only [List.dropLast_cons₂, List.all_append, List.all_cons, Bool.and_eq_true,
      Bool.not_eq_true', he] at hd
    simp at hd

/-- The payload is the thirteen ASCII bytes of the text. -/
theorem bytes_hello :
    bytes "Hello, world!" = [72, 101, 108, 108, 111, 44, 32, 119, 111, 114, 108, 100, 33] := by
  decide

/-! ## The claims -/

/-- C1: whatever the host returns to any imported call, the trace of one
invocation of `Handle` holds exactly one `ResponseOutparamSet` call, and it is
the one on `responseOut`. -/
theorem C1_outparam_set_exactly_once {σ : Type} (host : Host σ) (s : σ)
    (request : IncomingRequest) (responseOut : ResponseOutparam) :
    (traceOf host s request responseOut).countP Event.isSet = 1 ∧
    (traceOf host s request responseOut).countP (Event.isSetOn responseOut) = 1 := by
  obtain ⟨-, ⟨e, h⟩ | ⟨b, e, h⟩ | ⟨b, st, res, h⟩⟩ := trace_shape host s request responseOut <;>
    simp [h, Event.isSet, Event.isSetOn]

/-- C2: whatever the host returns, the one value placed into the out-parameter
is the success `Ok(response)`, where `response` is what `MakeOutgoingResponse`
returned for the header collection that `MakeFields()` returned; those two
calls open the trace, no other call has a header collection among its operands,
and no failure value is ever placed. -/
theorem C2_committed_value_is_constructed_response {σ : Type} (host : Host σ) (s : σ)
    (request : IncomingRequest) (responseOut : ResponseOutparam) :
    committed (traceOf host s request responseOut) =
      [(responseOut, Ok (responseOf host s))] ∧
    (traceOf host s request responseOut).take 2 =
      [Event.MakeFields (fieldsOf host s),
        Event.MakeOutgoingResponse (fieldsOf host s) (responseOf host s)] ∧
    (callsOf (traceOf host s request responseOut)).filter
        (fun c => c.operands.any fun x => x matches Resource.fields _) =
      [Call.MakeOutgoingResponse (fieldsOf host s)] ∧
    (traceOf host s request responseOut).all
      (fun e => !(e matches Event.ResponseOutparamSet _ (Result.err _))) = true := by
  obtain ⟨-, ⟨e, h⟩ | ⟨b, e, h⟩ | ⟨b, st, res, h⟩⟩ := trace_shape host s request responseOut <;>
    simp [h, committed, callsOf, Event.call, Call.operands, Ok]

/-- C3, as stated, fails: in the run where every call succeeds the stages are
construct, construct, acquire-body, commit, write, flush, and the `Body()`
call (position 2) is not after the `ResponseOutparamSet` call (position 3). -/
theorem C3_body_not_after_commit :
    (scriptedTrace ⟨true, true, true⟩).map Event.stage =
      [Stage.construct, Stage.construct, Stage.acquireBody, Stage.commit, Stage.write,
        Stage.flush] ∧
    ¬ ((scriptedTrace ⟨true, true, true⟩).findIdx Event.isSet <
        (scriptedTrace ⟨true, true, true⟩).findIdx Event.isBody) := by
  decide

/-- C3, amended: in every run the stages occur in the order construct,
acquire-body-channel, commit, then write, then flush (the last one or two
absent after a failure); the one `Body()` call is made on the constructed
response before the `ResponseOutparamSet` call, none is made after it. -/
theorem C3_stage_order {σ : Type} (host : Host σ) (s : σ)
    (request : IncomingRequest) (responseOut : ResponseOutparam) :
    ((traceOf host s request responseOut).map Event.stage =
        [Stage.construct, Stage.construct, Stage.acquireBody, Stage.commit] ∨
      (traceOf host s request responseOut).map Event.stage =
        [Stage.construct, Stage.construct, Stage.acquireBody, Stage.commit, Stage.write] ∨
      (traceOf host s request responseOut).map Event.stage =
        [Stage.construct, Stage.construct, Stage.acquireBody, Stage.commit, Stage.write,
          Stage.flush]) ∧
    (traceOf host s request responseOut).findIdx Event.isBody = 2 ∧
    (traceOf host s request responseOut).findIdx Event.isSet = 3 ∧
    (callsOf (beforeCommit (traceOf host s request responseOut))).filter
        (fun c => c matches Call.Body _) = [Call.Body (responseOf host s)] ∧
    (afterCommit (traceOf host s request responseOut)).countP Event.isBody = 0 := by
  obtain ⟨-, ⟨e, h⟩ | ⟨b, e, h⟩ | ⟨b, st, res, h⟩⟩ := trace_shape host s request responseOut <;>
    simp [h, Event.stage, Event.isBody, Event.isSet, List.findIdx_cons, callsOf, Event.call,
      beforeCommit, afterCommit, List.takeWhile, List.dropWhile]

/-- C4: in every run the trace splits at the `ResponseOutparamSet` call on
`responseOut`, and the part before it holds no `Write()` call and no
`BlockingWriteAndFlush` call: every such call comes after the commit. -/
theorem C4_commit_precedes_write_and_flush {σ : Type} (host : Host σ) (s : σ)
    (request : IncomingRequest) (responseOut : ResponseOutparam) :
    traceOf host s request responseOut =
      beforeCommit (traceOf host s request responseOut) ++
        Event.ResponseOutparamSet responseOut (Ok (responseOf host s)) ::
          afterCommit (traceOf host s request responseOut) ∧
    (beforeCommit (traceOf host s request responseOut)).countP Event.isWrite = 0 ∧
    (beforeCommit (traceOf host s request responseOut)).countP Event.isFlush = 0 ∧
    (afterCommit (traceOf host s request responseOut)).countP Event.isWrite =
      (traceOf host s request responseOut).countP Event.isWrite ∧
    (afterCommit (traceOf host s request responseOut)).countP Event.isFlush =
      (traceOf host s request responseOut).countP Event.isFlush := by
  obtain ⟨-, ⟨e, h⟩ | ⟨b, e, h⟩ | ⟨b, st, res, h⟩⟩ := trace_shape host s request responseOut <;>
    simp [h, Event.isWrite, Event.isFlush, Event.isSet, Ok,
      beforeCommit, afterCommit, List.takeWhile, List.dropWhile]

/-- C5: in a run where `Body()` and `Write()` both return success, the trace
holds exactly one `Body()` call, one `Write()` call and one
`BlockingWriteAndFlush` call, the bytes flushed are exactly the 13 ASCII bytes
of "Hello, world!", and the response committed is the one built from the
header collection that `MakeFields()` returned. -/
theorem C5_successful_run {σ : Type} (host : Host σ) (s : σ)
    (request : IncomingRequest) (responseOut : ResponseOutparam)
    (hbody : (traceOf host s request responseOut).any Event.isBodyOk = true)
    (hwrite : (traceOf host s request responseOut).any Event.isWriteOk = true) :
    (traceOf host s request responseOut).countP Event.isBody = 1 ∧
    (traceOf host s request responseOut).countP Event.isWrite = 1 ∧
    (traceOf host s request responseOut).countP Event.isFlush = 1 ∧
    flushed (traceOf host s request responseOut) =
      [[72, 101, 108, 108, 111, 44, 32, 119, 111, 114, 108, 100, 33]] ∧
    flushed (traceOf host s request responseOut) =
      ["Hello, world!".data.map Char.toNat] ∧
    (flushed (traceOf host s request responseOut)).map List.length = [13] ∧
    committed (traceOf host s request responseOut) =
      [(responseOut, Ok (responseOf host s))] ∧
    (traceOf host s request responseOut).take 2 =
      [Event.MakeFields (fieldsOf host s),
        Event.MakeOutgoingResponse (fieldsOf host s) (responseOf host s)] ∧
    (callsOf (traceOf host s request responseOut)).filter
        (fun c => c.operands.any fun x => x matches Resource.fields _) =
      [Call.MakeOutgoingResponse (fieldsOf host s)] := by
  have hdata : "Hello, world!".data.map Char.toNat =
      [72, 101, 108, 108, 111, 44, 32, 119, 111, 114, 108, 100, 33] := by decide
  rw [hdata]
  obtain ⟨-, ⟨e, h⟩ | ⟨b, e, h⟩ | ⟨b, st, res, h⟩⟩ := trace_shape host s request responseOut
  · simp [h, Event.isBodyOk, Event.isWriteOk] at hbody
  · simp [h, Event.isBodyOk, Event.isWriteOk] at hwrite
  · simp [h, bytes_hello, Event.isBody, Event.isWrite, Event.isFlush, flushed, committed,
      callsOf, Event.call, Call.operands, Ok]

/-- C5 at the scripted host whose three fallible calls all succeed. -/
theorem C5_successful_run_witness :
    ((traceOf (scriptedHost ⟨true, true, true⟩) 0 ⟨7⟩ ⟨9⟩).any Event.isBodyOk = true ∧
      (traceOf (scriptedHost ⟨true, true, true⟩) 0 ⟨7⟩ ⟨9⟩).any Event.isWriteOk = true) ∧
    (traceOf (scriptedHost ⟨true, true, true⟩) 0 ⟨7⟩ ⟨9⟩).countP Event.isBody = 1 ∧
    (traceOf (scriptedHost ⟨true, true, true⟩) 0 ⟨7⟩ ⟨9⟩).countP Event.isWrite = 1 ∧
    (traceOf (scriptedHost ⟨true, true, true⟩) 0 ⟨7⟩ ⟨9⟩).countP Event.isFlush = 1 ∧
    flushed (traceOf (scriptedHost ⟨true, true, true⟩) 0 ⟨7⟩ ⟨9⟩) =
      [[72, 101, 108, 108, 111, 44, 32, 119, 111, 114, 108, 100, 33]] ∧
    flushed (traceOf (scriptedHost ⟨true, true, true⟩) 0 ⟨7⟩ ⟨9⟩) =
      ["Hello, world!".data.map Char.toNat] ∧
    (flushed (traceOf (scriptedHost ⟨true, true, true⟩) 0 ⟨7⟩ ⟨9⟩)).map List.length = [13] ∧
    committed (traceOf (scriptedHost ⟨true, true, true⟩) 0 ⟨7⟩ ⟨9⟩) =
      [(⟨9⟩, Ok (responseOf (scriptedHost ⟨true, true, true⟩) 0))] ∧
    (traceOf (scriptedHost ⟨true, true, true⟩) 0 ⟨7⟩ ⟨9⟩).take 2 =
      [Event.MakeFields (fieldsOf (scriptedHost ⟨true, true, true⟩) 0),
        Event.MakeOutgoingResponse (fieldsOf (scriptedHost ⟨true, true, true⟩) 0)
          (responseOf (scriptedHost ⟨true, true, true⟩) 0)] ∧
    (callsOf (traceOf (scriptedHost ⟨true, true, true⟩) 0 ⟨7⟩ ⟨9⟩)).filter
        (fun c => c.operands.any fun x => x matches Resource.fields _) =
      [Call.MakeOutgoingResponse (fieldsOf (scriptedHost ⟨true, true, true⟩) 0)] :=
  ⟨⟨by decide, by decide⟩,
    C5_successful_run (scriptedHost ⟨true, true, true⟩) 0 ⟨7⟩ ⟨9⟩ (by decide) (by decide)⟩

/-- C6: in a run where `Body()` returns a failure, the trace holds no `Write()`
call and no `BlockingWriteAndFlush` call, `Handle` returns normally, and the
out-parameter is set exactly once, to `Ok(response)`; a run where `Body()`
succeeds and the host constructed the same response sets it to the same value. -/
theorem C6_body_failure {σ τ : Type} (host : Host σ) (s : σ) (host2 : Host τ) (s2 : τ)
    (request : IncomingRequest) (responseOut : ResponseOutparam)
    (hfail : (traceOf host s request responseOut).any Event.isBodyErr = true)
    (_hok : (traceOf host2 s2 request responseOut).any Event.isBodyOk = true)
    (hsame : responseOf host2 s2 = responseOf host s) :
    (traceOf host s request responseOut).countP Event.isWrite = 0 ∧
    (traceOf host s request responseOut).countP Event.isFlush = 0 ∧
    returnOf host s request responseOut = some () ∧
    (traceOf host s request responseOut).countP Event.isSet = 1 ∧
    committed (traceOf host s request responseOut) =
      [(responseOut, Ok (responseOf host s))] ∧
    committed (traceOf host s request responseOut) =
      committed (traceOf host2 s2 request responseOut) := by
  have hc2 : committed (traceOf host2 s2 request responseOut) =
      [(responseOut, Ok (responseOf host s))] := by
    rw [← hsame]
    obtain ⟨-, ⟨e, h⟩ | ⟨b, e, h⟩ | ⟨b, st, res, h⟩⟩ :=
      trace_shape host2 s2 request responseOut <;> simp [h, committed, Ok]
  rw [hc2]
  obtain ⟨hret, ⟨e, h⟩ | ⟨b, e, h⟩ | ⟨b, st, res, h⟩⟩ := trace_shape host s request responseOut
  · simp [h, hret, committed, Ok, Event.isWrite, Event.isFlush, Event.isSet]
  · simp [h, Event.isBodyErr] at hfail
  · simp [h, Event.isBodyErr] at hfail

/-- C6 at two scripted hosts that differ only in the outcome of `Body()`. -/
theorem C6_body_failure_witness :
    ((scriptedTrace ⟨false, true, true⟩).any Event.isBodyErr = true ∧
      (scriptedTrace ⟨true, true, true⟩).any Event.isBodyOk = true ∧
      responseOf (scriptedHost ⟨true, true, true⟩) 0 =
        responseOf (scriptedHost ⟨false, true, true⟩) 0) ∧
    (scriptedTrace ⟨false, true, true⟩).countP Event.isWrite = 0 ∧
    (scriptedTrace ⟨false, true, true⟩).countP Event.isFlush = 0 ∧
    returnOf (scriptedHost ⟨false, true, true⟩) 0 ⟨7⟩ ⟨9⟩ = some () ∧
    (scriptedTrace ⟨false, true, true⟩).countP Event.isSet = 1 ∧
    committed (scriptedTrace ⟨false, true, true⟩) =
      [(⟨9⟩, Ok (responseOf (scriptedHost ⟨false, true, true⟩) 0))] ∧
    committed (scriptedTrace ⟨false, true, true⟩) =
      committed (scriptedTrace ⟨true, true, true⟩) :=
  ⟨⟨by decide, by decide, by decide⟩,
    C6_body_failure (scriptedHost ⟨false, true, true⟩) 0 (scriptedHost ⟨true, true, true⟩) 0
      ⟨7⟩ ⟨9⟩ (by decide) (by decide) (by decide)⟩

/-- C7: a `BlockingWriteAndFlush` call is in the trace only if `Body()` and
`Write()` returned success; a run whose `Write()` fails has no
`BlockingWriteAndFlush` call; no `Write()` or `BlockingWriteAndFlush` call
follows a failed `BlockingWriteAndFlush`; every run has at most one `Write()`
call, at most one `BlockingWriteAndFlush` call and exactly one
`ResponseOutparamSet` call, and returns normally. -/
theorem C7_write_and_flush_failures {σ : Type} (host : Host σ) (s : σ)
    (request : IncomingRequest) (responseOut : ResponseOutparam) :
    ((traceOf host s request responseOut).any Event.isFlush = true →
      (traceOf host s request responseOut).any Event.isBodyOk = true ∧
      (traceOf host s request responseOut).any Event.isWriteOk = true) ∧
    ((traceOf host s request responseOut).any Event.isWriteErr = true →
      (traceOf host s request responseOut).countP Event.isFlush = 0) ∧
    (∀ (pre post : List Event) (e : Event),
      traceOf host s request responseOut = pre ++ e :: post → e.isFlushErr = true →
      post.countP Event.isWrite = 0 ∧ post.countP Event.isFlush = 0) ∧
    (traceOf host s request responseOut).countP Event.isWrite ≤ 1 ∧
    (traceOf host s request responseOut).countP Event.isFlush ≤ 1 ∧
    (traceOf host s request responseOut).countP Event.isSet = 1 ∧
    returnOf host s request responseOut = some () := by
  have hlast : ∀ (pre post : List Event) (x : Event),
      traceOf host s request responseOut = pre ++ x :: post → x.isFlushErr = true →
      (traceOf host s request responseOut).dropLast.all (fun y => !y.isFlushErr) = true →
      post.countP Event.isWrite = 0 ∧ post.countP Event.isFlush = 0 := by
    intro pre post x hx hfl hd
    simp [nothing_after_last hfl hx hd]
  obtain ⟨hret, ⟨e, h⟩ | ⟨b, e, h⟩ | ⟨b, st, res, h⟩⟩ := trace_shape host s request responseOut
  · refine ⟨?_, ?_, ?_, ?_, ?_, ?_, hret⟩
    · simp [h, Event.isFlush]
    · simp [h, Event.isFlush]
    · intro pre post x hx hfl
      exact hlast pre post x hx hfl (by rw [h]; simp [Event.isFlushErr])
    · simp [h, Event.isWrite]
    · simp [h, Event.isFlush]
    · simp [h, Event.isSet]
  · refine ⟨?_, ?_, ?_, ?_, ?_, ?_, hret⟩
    · simp [h, Event.isFlush]
    · simp [h, Event.isFlush]
    · intro pre post x hx hfl
      exact hlast pre post x hx hfl (by rw [h]; simp [Event.isFlushErr])
    · simp [h, Event.isWrite]
    · simp [h, Event.isFlush]
    · simp [h, Event.isSet]
  · refine ⟨?_, ?_, ?_, ?_, ?_, ?_, hret⟩
    · simp [h, Event.isFlush, Event.isBodyOk, Event.isWriteOk]
    · simp [h, Event.isFlush, Event.isWriteErr]
    · intro pre post x hx hfl
      exact hlast pre post x hx hfl (by rw [h]; simp [Event.isFlushErr])
    · simp [h, Event.isWrite]
    · simp [h, Event.isFlush]
    · simp [h, Event.isSet]

/-- C7 at the scripted hosts whose `Write()` fails, whose flush fails, and
whose calls all succeed. -/
theorem C7_write_and_flush_failures_witness :
    ((scriptedTrace ⟨true, false, true⟩).any Event.isWriteErr = true ∧
      (scriptedTrace ⟨true, false, true⟩).countP Event.isFlush = 0) ∧
    ((scriptedTrace ⟨true, true, true⟩).any Event.isFlush = true ∧
      (scriptedTrace ⟨true, true, true⟩).any Event.isBodyOk = true ∧
      (scriptedTrace ⟨true, true, true⟩).any Event.isWriteOk = true) ∧
    (scriptedTrace ⟨true, true, false⟩ =
        (scriptedTrace ⟨true, true, false⟩).take 5 ++
          Event.BlockingWriteAndFlush ⟨4⟩ (bytes "Hello, world!")
            (Result.err StreamError.Closed) :: [] ∧
      ([] : List Event).countP Event.isWrite = 0 ∧
      ([] : List Event).countP Event.isFlush = 0) ∧
    returnOf (scriptedHost ⟨true, true, false⟩) 0 ⟨7⟩ ⟨9⟩ = some () :=
  ⟨⟨by decide,
      (C7_write_and_flush_failures (scriptedHost ⟨true, false, true⟩) 0 ⟨7⟩ ⟨9⟩).2.1
        (by decide)⟩,
    ⟨by decide,
      (C7_write_and_flush_failures (scriptedHost ⟨true, true, true⟩) 0 ⟨7⟩ ⟨9⟩).1
        (by decide)⟩,
    ⟨by decide,
      (C7_write_and_flush_failures (scriptedHost ⟨true, true, false⟩) 0 ⟨7⟩ ⟨9⟩).2.2.1
        ((scriptedTrace ⟨true, true, false⟩).take 5) []
        (Event.BlockingWriteAndFlush ⟨4⟩ (bytes "Hello, world!")
          (Result.err StreamError.Closed))
        (by decide) (by decide)⟩,
    (C7_write_and_flush_failures (scriptedHost ⟨true, true, false⟩) 0 ⟨7⟩ ⟨9⟩).2.2.2.2.2.2⟩

/-- C8, as stated, fails: at two scripted hosts that differ only in the
outcome of `Body()`, every call of the run whose `Body()` fails is also a call
of the run where everything succeeds, and both runs place the same value into
the out-parameter. -/
theorem C8_failed_acquisition_not_distinguished :
    (scriptedTrace ⟨false, true, true⟩).any Event.isBodyErr = true ∧
    ((scriptedTrace ⟨true, true, true⟩).any Event.isBodyOk = true ∧
      (scriptedTrace ⟨true, true, true⟩).any Event.isWriteOk = true ∧
      (scriptedTrace ⟨true, true, true⟩).any Event.isFlushOk = true) ∧
    ¬ ((∃ c ∈ callsOf (scriptedTrace ⟨false, true, true⟩),
          c ∉ callsOf (scriptedTrace ⟨true, true, true⟩)) ∨
        committed (scriptedTrace ⟨false, true, true⟩) ≠
          committed (scriptedTrace ⟨true, true, true⟩)) := by
  decide

/-- C8, amended: a run whose `Body()` fails emits nothing that a fully
successful run does not. When the host constructed the same header collection
and response in both, the calls of the successful run are the calls of the
failed run followed by one `Write()` and one `BlockingWriteAndFlush` call, the
value placed into the out-parameter is the same, and the failed run differs
only by making no `Write()` and no `BlockingWriteAndFlush` call. -/
theorem C8_failed_acquisition_calls {σ τ : Type} (host : Host σ) (s : σ) (host2 : Host τ)
    (s2 : τ) (request : IncomingRequest) (responseOut : ResponseOutparam)
    (hfail : (traceOf host s request responseOut).any Event.isBodyErr = true)
    (hbody : (traceOf host2 s2 request responseOut).any Event.isBodyOk = true)
    (hwrite : (traceOf host2 s2 request responseOut).any Event.isWriteOk = true)
    (_hflush : (traceOf host2 s2 request responseOut).any Event.isFlushOk = true)
    (hf : fieldsOf host2 s2 = fieldsOf host s)
    (hr : responseOf host2 s2 = responseOf host s) :
    (∃ b st, callsOf (traceOf host2 s2 request responseOut) =
      callsOf (traceOf host s request responseOut) ++
        [Call.Write b, Call.BlockingWriteAndFlush st (bytes "Hello, world!")]) ∧
    (∀ c ∈ callsOf (traceOf host s request responseOut),
      c ∈ callsOf (traceOf host2 s2 request responseOut)) ∧
    committed (traceOf host s request responseOut) =
      committed (traceOf host2 s2 request responseOut) ∧
    (traceOf host s request responseOut).countP Event.isWrite = 0 ∧
    (traceOf host s request responseOut).countP Event.isFlush = 0 := by
  obtain ⟨-, ⟨e, h⟩ | ⟨b, e, h⟩ | ⟨b, st, res, h⟩⟩ := trace_shape host s request responseOut
  · obtain ⟨-, ⟨e2, h2⟩ | ⟨b2, e2, h2⟩ | ⟨b2, st2, res2, h2⟩⟩ :=
      trace_shape host2 s2 request responseOut
    · simp [h2, Event.isBodyOk] at hbody
    · simp [h2, Event.isWriteOk] at hwrite
    · refine ⟨⟨b2, st2, ?_⟩, ?_, ?_, ?_, ?_⟩ <;>
        simp [h, h2, hf, hr, callsOf, Event.call, committed, Event.isWrite, Event.isFlush]
  · simp [h, Event.isBodyErr] at hfail
  · simp [h, Event.isBodyErr] at hfail

/-- C8 amended, at two scripted hosts that differ only in the outcome of
`Body()`. -/
theorem C8_failed_acquisition_calls_witness :
    ((scriptedTrace ⟨false, true, true⟩).any Event.isBodyErr = true ∧
      (scriptedTrace ⟨true, true, true⟩).any Event.isBodyOk = true ∧
      (scriptedTrace ⟨true, true, true⟩).any Event.isWriteOk = true ∧
      (scriptedTrace ⟨true, true, true⟩).any Event.isFlushOk = true ∧
      fieldsOf (scriptedHost ⟨true, true, true⟩) 0 =
        fieldsOf (scriptedHost ⟨false, true, true⟩) 0 ∧
      responseOf (scriptedHost ⟨true, true, true⟩) 0 =
        responseOf (scriptedHost ⟨false, true, true⟩) 0) ∧
    (∃ b st, callsOf (scriptedTrace ⟨true, true, true⟩) =
      callsOf (scriptedTrace ⟨false, true, true⟩) ++
        [Call.Write b, Call.BlockingWriteAndFlush st (bytes "Hello, world!")]) ∧
    (∀ c ∈ callsOf (scriptedTrace ⟨false, true, true⟩),
      c ∈ callsOf (scriptedTrace ⟨true, true, true⟩)) ∧
    committed (scriptedTrace ⟨false, true, true⟩) =
      committed (scriptedTrace ⟨true, true, true⟩) ∧
    (scriptedTrace ⟨false, true, true⟩).countP Event.isWrite = 0 ∧
    (scriptedTrace ⟨false, true, true⟩).countP Event.isFlush = 0 :=
  ⟨⟨by decide, by decide, by decide, by decide, by decide, by decide⟩,
    C8_failed_acquisition_calls (scriptedHost ⟨false, true, true⟩) 0
      (scriptedHost ⟨true, true, true⟩) 0 ⟨7⟩ ⟨9⟩
      (by decide) (by decide) (by decide) (by decide) (by decide) (by decide)⟩

/-- C9: every call after the `ResponseOutparamSet` call is a `Write()` on the
body that `Body()` returned for the response, or a `BlockingWriteAndFlush` on
the stream that this `Write()` returned; none of them has the response or a
header collection among its operands. -/
theorem C9_no_response_operation_after_commit {σ : Type} (host : Host σ) (s : σ)
    (request : IncomingRequest) (responseOut : ResponseOutparam) :
    (afterCommit (traceOf host s request responseOut)).all
      (fun e => e.isWrite || e.isFlush) = true ∧
    (callsOf (afterCommit (traceOf host s request responseOut))).all
      (fun c => c.operands.all fun x =>
        !(x matches Resource.response _) && !(x matches Resource.fields _)) = true ∧
    (∀ b ret, Event.Write b ret ∈ afterCommit (traceOf host s request responseOut) →
      Event.Body (responseOf host s) (Result.ok b) ∈
        beforeCommit (traceOf host s request responseOut)) ∧
    (∀ st contents ret,
      Event.BlockingWriteAndFlush st contents ret ∈
        afterCommit (traceOf host s request responseOut) →
      ∃ b, Event.Write b (Result.ok st) ∈ afterCommit (traceOf host s request responseOut)) := by
  obtain ⟨-, ⟨e, h⟩ | ⟨b, e, h⟩ | ⟨b, st, res, h⟩⟩ := trace_shape host s request responseOut
  · simp [h, Event.isSet, callsOf, beforeCommit, afterCommit, List.takeWhile, List.dropWhile]
  · simp [h, Event.isWrite, Event.isSet, callsOf, Event.call, Call.operands,
      beforeCommit, afterCommit, List.takeWhile, List.dropWhile]
  · refine ⟨?_, ?_, ?_, ?_⟩
    · simp [h, Event.isWrite, Event.isFlush, Event.isSet, afterCommit, List.dropWhile]
    · simp [h, Event.isSet, callsOf, Event.call, Call.operands, afterCommit, List.dropWhile]
    · simp [h, Event.isSet, beforeCommit, afterCommit, List.takeWhile, List.dropWhile]
    · intro st2 contents ret hmem
      simp [h, Event.isSet, afterCommit, List.dropWhile] at hmem
      exact ⟨b, by simp [h, hmem.1, Event.isSet, afterCommit, List.dropWhile]⟩

/-- C9 at the scripted host whose calls all succeed: the `Write()` after the
commit is on the body handle 2 that `Body()` returned before it, and the flush
is on the stream handle 4 that this `Write()` returned. -/
theorem C9_no_response_operation_after_commit_witness :
    (Event.Write ⟨2⟩ (Result.ok ⟨4⟩) ∈ afterCommit (scriptedTrace ⟨true, true, true⟩) ∧
      Event.Body (responseOf (scriptedHost ⟨true, true, true⟩) 0) (Result.ok ⟨2⟩) ∈
        beforeCommit (scriptedTrace ⟨true, true, true⟩)) ∧
    (Event.BlockingWriteAndFlush ⟨4⟩ (bytes "Hello, world!") (Result.ok ()) ∈
        afterCommit (scriptedTrace ⟨true, true, true⟩) ∧
      ∃ b, Event.Write b (Result.ok ⟨4⟩) ∈ afterCommit (scriptedTrace ⟨true, true, true⟩)) :=
  ⟨⟨by decide,
      (C9_no_response_operation_after_commit (scriptedHost ⟨true, true, true⟩) 0 ⟨7⟩ ⟨9⟩).2.2.1
        ⟨2⟩ (Result.ok ⟨4⟩) (by decide)⟩,
    ⟨by decide,
      (C9_no_response_operation_after_commit (scriptedHost ⟨true, true, true⟩) 0 ⟨7⟩ ⟨9⟩).2.2.2
        ⟨4⟩ (bytes "Hello, world!") (Result.ok ()) (by decide)⟩⟩

/-- C10: for any two requests, against the same host in the same state, the
two invocations of `Handle` give the same result, the same final host state and
the same trace (same calls, same arguments, same outcomes), and no call of
the trace has a request among its operands. -/
theorem C10_request_unused {σ : Type} (host : Host σ) (s : σ)
    (r1 r2 : IncomingRequest) (responseOut : ResponseOutparam) :
    invoke host s r1 responseOut = invoke host s r2 responseOut ∧
    traceOf host s r1 responseOut = traceOf host s r2 responseOut ∧
    callsOf (traceOf host s r1 responseOut) = callsOf (traceOf host s r2 responseOut) ∧
    committed (traceOf host s r1 responseOut) = committed (traceOf host s r2 responseOut) ∧
    flushed (traceOf host s r1 responseOut) = flushed (traceOf host s r2 responseOut) ∧
    (callsOf (traceOf host s r1 responseOut)).all
      (fun c => c.operands.all fun x => !(x matches Resource.request _)) = true := by
  refine ⟨rfl, rfl, rfl, rfl, rfl, ?_⟩
  obtain ⟨-, ⟨e, h⟩ | ⟨b, e, h⟩ | ⟨b, st, res, h⟩⟩ := trace_shape host s r1 responseOut <;>
    simp [h, callsOf, Event.call, Call.operands]

end ExportWasiHttpIncomingHandler
